import Mathlib

/-!
Shallow embedding of `velociraptor/autoplotter/plot.py`.

Matplotlib and numpy calls are modelled as explicit events applied to an
axes/figure state; Python floats are modelled as exact rationals; Python
exceptions are modelled with `Except`.  Python local variables that survive
a loop iteration (the `va`, `ha`, `x`, `y` locals of `decorate_axes`) are
modelled as `Option`-valued loop state, with a `NameError` outcome when a
variable is read before it was ever assigned.
-/

namespace VelociraptorPlot

/-- Python `s.split(sep)` for a one-character separator, on character
lists: one part per separator occurrence, empty parts kept. -/
def splitCharAux (c : Char) : List Char → List (List Char)
  | [] => [[]]
  | a :: rest =>
    if a = c then [] :: splitCharAux c rest
    else
      match splitCharAux c rest with
      | h :: t => (a :: h) :: t
      | [] => [[a]]

/-- Python `s.split(c)` for a one-character separator `c`. -/
def pySplit (s : String) (c : Char) : List String :=
  (splitCharAux c s.data).map (fun l => ⟨l⟩)

/-- Round `q * 1000` to the nearest integer, ties to even (the rounding
Python `format(x, "2.3f")` applies to the value scaled by 10^3), computed
on the numerator and denominator: with `N = 1000 * q.num`,
`D = q.den`, `f = ⌊N / D⌋` and `rem = N - f * D` the fractional part
`rem / D` is compared with one half. -/
def roundHalfEven1000 (q : ℚ) : Int :=
  let N : Int := 1000 * q.num
  let D : Int := (q.den : Int)
  let f : Int := Int.fdiv N D
  let rem : Int := N - f * D
  if 2 * rem < D then f
  else if D < 2 * rem then f + 1
  else if f % 2 = 0 then f else f + 1

/-- Left-pad the decimal digits of `n` to three characters with zeros. -/
def padTo3 (n : Nat) : String :=
  if n < 10 then "00" ++ toString n
  else if n < 100 then "0" ++ toString n
  else toString n

/-- Python fixed-point formatting with format spec `2.3f`: three digits
after the decimal point, half-even rounding; the minimum width 2 is always
already exceeded by the at least five characters of the result, so it never
pads.  A negative value rounded to zero keeps its sign, as in Python. -/
def pyFormat23 (q : ℚ) : String :=
  let n : Int := roundHalfEven1000 q
  let sign : String := if q < 0 then "-" else ""
  let m : Nat := n.natAbs
  sign ++ toString (m / 1000) ++ "." ++ padTo3 (m % 1000)

/-- The two color normalizations imported from `matplotlib.colors`. -/
inductive NormType where
  | normalize : NormType
  | logNorm : NormType
deriving DecidableEq, Repr

/-- One call into the plotting library, with the arguments the module
passes. -/
inductive Event where
  | scatter (xs ys : List ℚ) (s : ℚ) (edgecolor : String) (alpha : ℚ) (zorder : Int)
  | pcolormesh (xEdges yEdges : List ℚ) (C : List (List ℚ)) (norm : NormType) (zorder : Int)
  | colorbar (label : String) (pad : ℚ)
  | errorbar (xs ys yerr : List ℚ)
  | setXLabel (label : String)
  | setYLabel (label : String)
  | legend (loc : String) (markerfirst : Bool)
  | text (x y : ℚ) (label : String) (ha va : String) (transform : String) (multialignment : String)
deriving DecidableEq, Repr

def isScatterEv : Event → Bool
  | .scatter .. => true
  | _ => false

def isPcolormeshEv : Event → Bool
  | .pcolormesh .. => true
  | _ => false

def isErrorbarEv : Event → Bool
  | .errorbar .. => true
  | _ => false

def isTextEv : Event → Bool
  | .text .. => true
  | _ => false

/-- The observable state of one figure/axes pair.  `title` stands for the
axes properties the module never touches. -/
structure AxesState where
  xlabel : String
  ylabel : String
  title : String
  texts : List Event
  legend : Option Event
  artists : List Event
  colorbars : List Event
deriving DecidableEq, Repr

/-- The fresh figure/axes pair returned by `plt.subplots()`. -/
def freshAxes : AxesState :=
  { xlabel := "", ylabel := "", title := "", texts := [], legend := none,
    artists := [], colorbars := [] }

/-- Apply one library call to the axes state.  `ax.legend` replaces any
existing legend; `ax.text` and the artists accumulate. -/
def applyEvent (ax : AxesState) (ev : Event) : AxesState :=
  match ev with
  | .setXLabel l => { ax with xlabel := l }
  | .setYLabel l => { ax with ylabel := l }
  | .legend _ _ => { ax with legend := some ev }
  | .text _ _ _ _ _ _ _ => { ax with texts := ax.texts ++ [ev] }
  | .colorbar _ _ => { ax with colorbars := ax.colorbars ++ [ev] }
  | .scatter .. => { ax with artists := ax.artists ++ [ev] }
  | .pcolormesh .. => { ax with artists := ax.artists ++ [ev] }
  | .errorbar _ _ _ => { ax with artists := ax.artists ++ [ev] }

def applyEvents (ax : AxesState) (evs : List Event) : AxesState :=
  evs.foldl applyEvent ax

/-- A `unyt` array: numeric values with attached units and a name. -/
structure unyt_array where
  value : List ℚ
  units : String
  name : String
deriving DecidableEq, Repr

/-- Modelled from the spec: `VelociraptorCatalogue` (its module is not in
the sources); the spec describes it as "a simple catalogue object exposing
two scalar fields (redshift, scale factor)", read by `decorate_axes` as
`catalogue.z` and `catalogue.a`. -/
structure VelociraptorCatalogue where
  z : ℚ
  a : ℚ
deriving DecidableEq, Repr

/-- Modelled from the spec: `VelociraptorLine` (its module,
`velociraptor.autoplotter.objects`, is not in the sources); per the claim
its `output` is a triple `(centers, values, errors)` of unyt arrays. -/
structure VelociraptorLine where
  output : unyt_array × unyt_array × unyt_array
deriving DecidableEq, Repr

/-- Modelled from the spec: `velociraptor.tools.get_full_label` (the tools
module is not in the sources); the spec describes it only as the
label-formatting helper producing the full label of a unyt array. -/
def get_full_label (arr : unyt_array) : String :=
  arr.name ++ " $\\left[" ++ arr.units ++ "\\right]$"

/-- Modelled from the spec: `velociraptor.tools.get_mass_function_label`
(the tools module is not in the sources); a label-formatting helper taking
the sub-label and the units of the mass-function values. -/
def get_mass_function_label (mass_function_sub_label : String)
    (mass_function_units : String) : String :=
  "d$n(" ++ mass_function_sub_label ++ ")$/d" ++ mass_function_sub_label ++
    " $\\left[" ++ mass_function_units ++ "\\right]$"

/-- `set_labels(ax=ax, x=x, y=y)`: sets the x and y labels of the axes
from the full labels of `x` and `y`; the Python function returns `None`,
so the model returns only the updated axes and the emitted events. -/
def set_labels (ax : AxesState) (x y : unyt_array) : AxesState × List Event :=
  let evs := [Event.setXLabel (get_full_label x), Event.setYLabel (get_full_label y)]
  (applyEvents ax evs, evs)

/-- `scatter_x_against_y(x, y)`. -/
def scatter_x_against_y (x y : unyt_array) : AxesState × List Event :=
  let ev1 := [Event.scatter x.value y.value 1 "none" (1/2) (-100)]
  let ax1 := applyEvents freshAxes ev1
  let r := set_labels ax1 x y
  (r.1, ev1 ++ r.2)

/-- Index of the bin of `np.histogram` edge list `edges` containing `v`:
half-open bins, the last bin closed on the right; `none` when `v` is out
of range. -/
def binIndex (edges : List ℚ) (v : ℚ) : Option Nat :=
  let n := edges.length
  (List.range (n - 1)).find? (fun i =>
    match edges.get? i, edges.get? (i + 1) with
    | some lo, some hi =>
      decide (lo ≤ v) && (if i = n - 2 then decide (v ≤ hi) else decide (v < hi))
    | _, _ => false)

/-- `np.histogram2d(x=xs, y=ys, bins=[xEdges, yEdges])`: the count matrix
(first index along x) and the bin edges, which are returned unchanged when
given explicitly. -/
def histogram2d (xs ys xEdges yEdges : List ℚ) :
    List (List ℚ) × List ℚ × List ℚ :=
  let pairs := xs.zip ys
  let nx := xEdges.length - 1
  let ny := yEdges.length - 1
  ((List.range nx).map (fun i =>
      (List.range ny).map (fun j =>
        ((pairs.filter (fun p =>
            (binIndex xEdges p.1 == some i) && (binIndex yEdges p.2 == some j))).length : ℚ))),
   xEdges, yEdges)

/-- `histogram_x_against_y(x, y, x_bins, y_bins)`. -/
def histogram_x_against_y (x y x_bins y_bins : unyt_array) :
    AxesState × List Event :=
  let r := histogram2d x.value y.value x_bins.value y_bins.value
  let H := r.1
  let xe := r.2.1
  let ye := r.2.2
  let evs := [Event.pcolormesh xe ye (List.transpose H) NormType.logNorm (-100),
              Event.colorbar "Number of haloes" 0]
  let ax1 := applyEvents freshAxes evs
  let r2 := set_labels ax1 x y
  (r2.1, evs ++ r2.2)

/-- `mass_function(x, x_bins, mass_function)`: the third parameter shadows
the function name in Python and is rebound to the values component of its
own `output`; `x_bins` is never read in the body. -/
def mass_function (x x_bins : unyt_array) (mass_function_line : VelociraptorLine) :
    AxesState × List Event :=
  let centers := mass_function_line.output.1
  let mass_function_values := mass_function_line.output.2.1
  let error := mass_function_line.output.2.2
  let evs := [Event.errorbar centers.value mass_function_values.value error.value,
              Event.setXLabel (get_full_label x),
              Event.setYLabel (get_mass_function_label "\x7b\x7d" mass_function_values.units)]
  (applyEvents freshAxes evs, evs)

/-- Boolean list-of-characters matching for Python's `in` on strings. -/
def charsStartWith : List Char → List Char → Bool
  | [], _ => true
  | _ :: _, [] => false
  | a :: as, b :: bs => (a = b) && charsStartWith as bs

/-- Python `needle in hay` for strings, on character lists. -/
def charsContain (needle : List Char) : List Char → Bool
  | [] => charsStartWith needle []
  | b :: rest => charsStartWith needle (b :: rest) || charsContain needle rest

/-- `markerfirst = "right" not in legend_loc`. -/
def markerfirstOf (legend_loc : String) : Bool :=
  ! charsContain ("right".data) legend_loc.data

/-- The f-string label of the redshift/scale-factor annotation. -/
def redshiftLabel (catalogue : VelociraptorCatalogue) : String :=
  "$z=" ++ pyFormat23 catalogue.z ++ "$\n$a=" ++ pyFormat23 catalogue.a ++ "$"

/-- Python exceptions `decorate_axes` can raise: the explicit
`AttributeError` and the `NameError` (an `UnboundLocalError`) raised when
a local is read before any assignment. -/
inductive PyErr where
  | attributeError (msg : String)
  | nameError (varName : String)
deriving DecidableEq, Repr

/-- The `try: va, ha = loc.split(" ") except ValueError: ...` block of
`decorate_axes`: the words bound for `loc`, or `none` when the except
branch also assigns nothing. -/
def locWords (loc : String) : Option (String × String) :=
  match pySplit loc ' ' with
  | [v, h] => some (v, h)
  | _ =>
    if loc = "right" then some ("center", "right")
    else if loc = "center" then some ("center", "center")
    else none

/-- The vertical branch of `decorate_axes`: for `va` in
`lower`/`upper`/`center` the y coordinate and the (possibly rewritten)
vertical alignment; `none` means the `AttributeError` branch. -/
def vaCoord (va : String) : Option (ℚ × String) :=
  if va = "lower" then some (5/100, "bottom")
  else if va = "upper" then some (95/100, "top")
  else if va = "center" then some (1/2, "center")
  else none

/-- The horizontal branch of `decorate_axes`: the x coordinate for `ha` in
`left`/`right`/`center`; `none` means no branch fires and `x` keeps its
previous value. -/
def haCoord (ha : String) : Option ℚ :=
  if ha = "left" then some (5/100)
  else if ha = "right" then some (95/100)
  else if ha = "center" then some (1/2)
  else none

/-- The Python locals of the `decorate_axes` loop body that persist from
one iteration to the next. -/
structure LocLocals where
  va : Option String
  ha : Option String
  x : Option ℚ
  y : Option ℚ
deriving DecidableEq, Repr

def freshLocals : LocLocals := ⟨none, none, none, none⟩

/-- One iteration of the `for loc, label in label_switch.items()` loop of
`decorate_axes`, faithful to the Python control flow: the split/except
block, the `va` chain (raising the `AttributeError` on an unknown vertical
word), the `ha` chain (which silently keeps a stale `x` when no branch
fires), and the final `ax.text` call; reading a never-assigned local
raises a `NameError`. -/
def locStep (st : LocLocals) (loc label : String) :
    Except PyErr (LocLocals × Event) :=
  let vh : Option String × Option String :=
    match locWords loc with
    | some (v, h) => (some v, some h)
    | none => (st.va, st.ha)
  match vh.1 with
  | none => Except.error (PyErr.nameError "va")
  | some va1 =>
    match vaCoord va1 with
    | none => Except.error (PyErr.attributeError
        ("Unknown location string " ++ loc ++ ". Choose e.g. lower right"))
    | some (y1, va2) =>
      match vh.2 with
      | none => Except.error (PyErr.nameError "ha")
      | some ha1 =>
        let x1 : Option ℚ :=
          match haCoord ha1 with
          | some xv => some xv
          | none => st.x
        match x1 with
        | none => Except.error (PyErr.nameError "x")
        | some xv =>
          Except.ok (⟨some va2, some ha1, some xv, some y1⟩,
            Event.text xv y1 label ha1 va2 "ax.transAxes" ha1)

/-- The loop of `decorate_axes` over the entries of `label_switch`,
threading the Python locals and the axes. -/
def runSwitch : LocLocals → AxesState → List (String × String) →
    Except PyErr AxesState
  | _, ax, [] => Except.ok ax
  | st, ax, p :: rest =>
    match locStep st p.1 p.2 with
    | Except.error e => Except.error e
    | Except.ok (st', ev) => runSwitch st' (applyEvent ax ev) rest

/-- `decorate_axes(ax, catalogue, comment, legend_loc, redshift_loc,
comment_loc)`.  The `label_switch` dict literal keeps insertion order and
collapses to a single entry when its two keys coincide, the later value
winning; the value stored for the `comment_loc` key is the string
`comment_loc` itself, and the `comment` parameter is never read. -/
def decorate_axes (ax : AxesState) (catalogue : VelociraptorCatalogue)
    (comment : Option String)
    (legend_loc redshift_loc comment_loc : String) :
    Except PyErr AxesState :=
  let markerfirst := markerfirstOf legend_loc
  let ax1 := applyEvent ax (Event.legend legend_loc markerfirst)
  let label_switch : List (String × String) :=
    if redshift_loc = comment_loc then [(comment_loc, comment_loc)]
    else [(redshift_loc, redshiftLabel catalogue), (comment_loc, comment_loc)]
  runSwitch freshLocals ax1 label_switch

/-- A location string that `decorate_axes` recognizes when processed with
fresh loop locals: two words with a known vertical and horizontal word, or
the bare words `right` / `center`. -/
def recognizedLoc (loc : String) : Bool :=
  match locWords loc with
  | some (va, ha) =>
    decide ((va = "lower" ∨ va = "upper" ∨ va = "center") ∧
            (ha = "left" ∨ ha = "right" ∨ ha = "center"))
  | none => false

/-- The coordinate table stated in the specification: `lower` gives
y = 0.05, `upper` gives y = 0.95, `center` gives y = 0.5; `left` gives
x = 0.05, `right` gives x = 0.95, `center` gives x = 0.5; the one-word
strings `right` and `center` give (0.95, 0.5) and (0.5, 0.5). -/
def specYOfWord (w : String) : Option ℚ :=
  if w = "lower" then some (5/100)
  else if w = "upper" then some (95/100)
  else if w = "center" then some (1/2)
  else none

def specXOfWord (w : String) : Option ℚ :=
  if w = "left" then some (5/100)
  else if w = "right" then some (95/100)
  else if w = "center" then some (1/2)
  else none

def specCoords (loc : String) : Option (ℚ × ℚ) :=
  match pySplit loc ' ' with
  | [v, h] =>
    match specYOfWord v, specXOfWord h with
    | some y, some x => some (x, y)
    | _, _ => none
  | _ =>
    if loc = "right" then some (95/100, 1/2)
    else if loc = "center" then some (1/2, 1/2)
    else none

/-- The exception an unrecognized first-processed location produces: the
descriptive `AttributeError` only when the string splits into exactly two
words whose first word is unknown; otherwise an unbound-local
`NameError`. -/
def unrecognizedErr (loc : String) : PyErr :=
  match pySplit loc ' ' with
  | [va, _] =>
    if vaCoord va = none then
      PyErr.attributeError ("Unknown location string " ++ loc ++ ". Choose e.g. lower right")
    else PyErr.nameError "x"
  | _ => PyErr.nameError "va"

/-- One call into the module, with all its arguments. -/
inductive Call where
  | scatterCall (x y : unyt_array)
  | histogramCall (x y x_bins y_bins : unyt_array)
  | massFunctionCall (x x_bins : unyt_array) (line : VelociraptorLine)
  | decorateCall (ax : AxesState) (catalogue : VelociraptorCatalogue)
      (comment : Option String) (legend_loc redshift_loc comment_loc : String)
  | setLabelsCall (ax : AxesState) (x y : unyt_array)
deriving DecidableEq, Repr

instance exceptDecEq {ε α : Type} [DecidableEq ε] [DecidableEq α] :
    DecidableEq (Except ε α)
  | Except.ok a, Except.ok b =>
    if h : a = b then isTrue (by rw [h]) else isFalse (by intro hc; cases hc; exact h rfl)
  | Except.ok _, Except.error _ => isFalse (by intro hc; cases hc)
  | Except.error _, Except.ok _ => isFalse (by intro hc; cases hc)
  | Except.error e, Except.error f =>
    if h : e = f then isTrue (by rw [h]) else isFalse (by intro hc; cases hc; exact h rfl)

inductive CallResult where
  | figAx (r : AxesState × List Event)
  | decorated (r : Except PyErr AxesState)
  | labeled (r : AxesState × List Event)
deriving DecidableEq, Repr

/-- Run one module call; there is no module-level state to thread. -/
def runCall : Call → CallResult
  | Call.scatterCall x y => CallResult.figAx (scatter_x_against_y x y)
  | Call.histogramCall x y xb yb => CallResult.figAx (histogram_x_against_y x y xb yb)
  | Call.massFunctionCall x xb line => CallResult.figAx (mass_function x xb line)
  | Call.decorateCall ax cat comment ll rl cl =>
      CallResult.decorated (decorate_axes ax cat comment ll rl cl)
  | Call.setLabelsCall ax x y => CallResult.labeled (set_labels ax x y)

def runCalls (cs : List Call) : List CallResult := cs.map runCall

/-! ### Helper lemmas -/

theorem str_data_append (a b : String) : (a ++ b).data = a.data ++ b.data := rfl

theorem splitCharAux_ne_nil (c : Char) (l : List Char) : splitCharAux c l ≠ [] := by
  cases l with
  | nil => simp [splitCharAux]
  | cons a rest =>
    simp only [splitCharAux]
    split
    · simp
    · split <;> simp

theorem splitCharAux_head (c : Char) (l : List Char) (a : List Char)
    (rest : List (List Char)) (h : splitCharAux c l = a :: rest) :
    l.head? = a.head? ∨ a = [] := by
  cases l with
  | nil =>
    simp [splitCharAux] at h
    simp [h.1]
  | cons b bs =>
    simp only [splitCharAux] at h
    by_cases hb : b = c
    · rw [if_pos hb] at h
      right
      exact (List.cons.injEq _ _ _ _ ▸ h).1.symm
    · rw [if_neg hb] at h
      rcases hsp : splitCharAux c bs with _ | ⟨h1, t1⟩
      · exact absurd hsp (splitCharAux_ne_nil c bs)
      · rw [hsp] at h
        left
        have := (List.cons.injEq _ _ _ _ ▸ h).1
        rw [← this]
        rfl

theorem recognized_cases (loc : String) (h : recognizedLoc loc = true) :
    (∃ va ha, pySplit loc ' ' = [va, ha] ∧
      (va = "lower" ∨ va = "upper" ∨ va = "center") ∧
      (ha = "left" ∨ ha = "right" ∨ ha = "center")) ∨
    loc = "right" ∨ loc = "center" := by
  unfold recognizedLoc locWords at h
  rcases hp : pySplit loc ' ' with _ | ⟨v, _ | ⟨w, _ | _⟩⟩ <;> rw [hp] at h
  · by_cases hr : loc = "right"
    · exact Or.inr (Or.inl hr)
    · by_cases hc : loc = "center"
      · exact Or.inr (Or.inr hc)
      · rw [if_neg hr, if_neg hc] at h
        simp at h
  · by_cases hr : loc = "right"
    · exact Or.inr (Or.inl hr)
    · by_cases hc : loc = "center"
      · exact Or.inr (Or.inr hc)
      · rw [if_neg hr, if_neg hc] at h
        simp at h
  · simp only [decide_eq_true_eq] at h
    exact Or.inl ⟨v, w, rfl, h.1, h.2⟩
  · by_cases hr : loc = "right"
    · exact Or.inr (Or.inl hr)
    · by_cases hc : loc = "center"
      · exact Or.inr (Or.inr hc)
      · rw [if_neg hr, if_neg hc] at h
        simp at h

theorem locStep_recognized (st : LocLocals) (loc label : String)
    (h : recognizedLoc loc = true) :
    ∃ x y ha va,
      specCoords loc = some (x, y) ∧
      locStep st loc label = Except.ok (⟨some va, some ha, some x, some y⟩,
        Event.text x y label ha va "ax.transAxes" ha) ∧
      ((pySplit loc ' ').head? = some "lower" → va = "bottom") ∧
      ((pySplit loc ' ').head? = some "upper" → va = "top") ∧
      haCoord ha = some x ∧
      (¬((pySplit loc ' ').head? = some "lower" ∨
          (pySplit loc ' ').head? = some "upper") → va = "center") := by
  rcases recognized_cases loc h with ⟨va, ha, hp, hva, hha⟩ | rfl | rfl
  · rcases hva with rfl | rfl | rfl <;> rcases hha with rfl | rfl | rfl
    · exact ⟨5/100, 5/100, "left", "bottom",
        by simp [specCoords, specXOfWord, specYOfWord, hp],
        by simp [locStep, locWords, vaCoord, haCoord, hp],
        by simp [hp], by simp [hp], rfl, by simp [hp]⟩
    · exact ⟨95/100, 5/100, "right", "bottom",
        by simp [specCoords, specXOfWord, specYOfWord, hp],
        by simp [locStep, locWords, vaCoord, haCoord, hp],
        by simp [hp], by simp [hp], rfl, by simp [hp]⟩
    · exact ⟨1/2, 5/100, "center", "bottom",
        by simp [specCoords, specXOfWord, specYOfWord, hp],
        by simp [locStep, locWords, vaCoord, haCoord, hp],
        by simp [hp], by simp [hp], rfl, by simp [hp]⟩
    · exact ⟨5/100, 95/100, "left", "top",
        by simp [specCoords, specXOfWord, specYOfWord, hp],
        by simp [locStep, locWords, vaCoord, haCoord, hp],
        by simp [hp], by simp [hp], rfl, by simp [hp]⟩
    · exact ⟨95/100, 95/100, "right", "top",
        by simp [specCoords, specXOfWord, specYOfWord, hp],
        by simp [locStep, locWords, vaCoord, haCoord, hp],
        by simp [hp], by simp [hp], rfl, by simp [hp]⟩
    · exact ⟨1/2, 95/100, "center", "top",
        by simp [specCoords, specXOfWord, specYOfWord, hp],
        by simp [locStep, locWords, vaCoord, haCoord, hp],
        by simp [hp], by simp [hp], rfl, by simp [hp]⟩
    · exact ⟨5/100, 1/2, "left", "center",
        by simp [specCoords, specXOfWord, specYOfWord, hp],
        by simp [locStep, locWords, vaCoord, haCoord, hp],
        by simp [hp], by simp [hp], rfl, fun _ => rfl⟩
    · exact ⟨95/100, 1/2, "right", "center",
        by simp [specCoords, specXOfWord, specYOfWord, hp],
        by simp [locStep, locWords, vaCoord, haCoord, hp],
        by simp [hp], by simp [hp], rfl, fun _ => rfl⟩
    · exact ⟨1/2, 1/2, "center", "center",
        by simp [specCoords, specXOfWord, specYOfWord, hp],
        by simp [locStep, locWords, vaCoord, haCoord, hp],
        by simp [hp], by simp [hp], rfl, fun _ => rfl⟩
  · exact ⟨95/100, 1/2, "right", "center", rfl, rfl, by simp [pySplit, splitCharAux],
      by simp [pySplit, splitCharAux], rfl, fun _ => rfl⟩
  · exact ⟨1/2, 1/2, "center", "center", rfl, rfl, by simp [pySplit, splitCharAux],
      by simp [pySplit, splitCharAux], rfl, fun _ => rfl⟩

theorem locStep_fresh_unrecognized (loc label : String)
    (h : recognizedLoc loc = false) :
    locStep freshLocals loc label = Except.error (unrecognizedErr loc) := by
  unfold recognizedLoc locWords at h
  unfold locStep locWords unrecognizedErr
  rcases hp : pySplit loc ' ' with _ | ⟨v, _ | ⟨w, _ | _⟩⟩
  · by_cases hr : loc = "right"
    · rw [hr] at hp
      exact absurd hp (by decide)
    · by_cases hc : loc = "center"
      · rw [hc] at hp
        exact absurd hp (by decide)
      · simp [if_neg hr, if_neg hc, freshLocals]
  · by_cases hr : loc = "right"
    · subst hr
      rw [hp] at h
      simp at h
    · by_cases hc : loc = "center"
      · subst hc
        rw [hp] at h
        simp at h
      · simp [if_neg hr, if_neg hc, freshLocals]
  · rcases hv : vaCoord v with _ | ⟨y1, va2⟩
    · simp [hv]
    · have hvmem : v = "lower" ∨ v = "upper" ∨ v = "center" := by
        by_cases h1 : v = "lower"
        · exact Or.inl h1
        · by_cases h2 : v = "upper"
          · exact Or.inr (Or.inl h2)
          · by_cases h3 : v = "center"
            · exact Or.inr (Or.inr h3)
            · rw [vaCoord, if_neg h1, if_neg h2, if_neg h3] at hv
              cases hv
      have hwmem : ¬ (w = "left" ∨ w = "right" ∨ w = "center") := by
        intro hwm
        rw [hp] at h
        rcases hvmem with rfl | rfl | rfl <;> rcases hwm with rfl | rfl | rfl <;>
          simp at h
      have hw : haCoord w = none := by
        rw [haCoord, if_neg (fun h1 => hwmem (Or.inl h1)),
          if_neg (fun h2 => hwmem (Or.inr (Or.inl h2))),
          if_neg (fun h3 => hwmem (Or.inr (Or.inr h3)))]
      simp [hv, hw, freshLocals]
  · by_cases hr : loc = "right"
    · rw [hr] at hp
      simp [pySplit, splitCharAux] at hp
    · by_cases hc : loc = "center"
      · rw [hc] at hp
        simp [pySplit, splitCharAux] at hp
      · simp [if_neg hr, if_neg hc, freshLocals]

theorem recognized_head (loc : String) (h : recognizedLoc loc = true) :
    loc.data.head? = some 'l' ∨ loc.data.head? = some 'u' ∨
    loc.data.head? = some 'c' ∨ loc.data.head? = some 'r' := by
  rcases recognized_cases loc h with ⟨va, ha, hp, hva, hha⟩ | rfl | rfl
  · unfold pySplit at hp
    rcases hs : splitCharAux ' ' loc.data with _ | ⟨a, rest⟩
    · exact absurd hs (splitCharAux_ne_nil _ _)
    · rw [hs] at hp
      simp only [List.map_cons] at hp
      have ha1 : (⟨a⟩ : String) = va := (List.cons.injEq _ _ _ _ ▸ hp).1
      have ha2 : a = va.data := by rw [← ha1]
      have hh := splitCharAux_head ' ' loc.data a rest hs
      rcases hh with hh | hh
      · rw [hh, ha2]
        rcases hva with rfl | rfl | rfl
        · exact Or.inl rfl
        · exact Or.inr (Or.inl rfl)
        · exact Or.inr (Or.inr (Or.inl rfl))
      · rw [hh] at ha2
        rcases hva with rfl | rfl | rfl <;> exact absurd ha2.symm (by decide)
  · exact Or.inr (Or.inr (Or.inr rfl))
  · exact Or.inr (Or.inr (Or.inl rfl))

theorem redshiftLabel_head (cat : VelociraptorCatalogue) :
    (redshiftLabel cat).data.head? = some '$' := by
  unfold redshiftLabel
  simp only [str_data_append, List.append_assoc]
  rfl

theorem recognized_ne_redshiftLabel (loc : String) (cat : VelociraptorCatalogue)
    (h : recognizedLoc loc = true) : loc ≠ redshiftLabel cat := by
  intro he
  have h1 := recognized_head loc h
  rw [he, redshiftLabel_head cat] at h1
  rcases h1 with h1 | h1 | h1 | h1 <;> exact absurd h1 (by decide)

theorem decorate_axes_same_loc (ax : AxesState) (cat : VelociraptorCatalogue)
    (comment : Option String) (ll loc : String) (h : recognizedLoc loc = true) :
    ∃ x y ha va,
      specCoords loc = some (x, y) ∧
      decorate_axes ax cat comment ll loc loc =
        Except.ok (applyEvent (applyEvent ax (Event.legend ll (markerfirstOf ll)))
          (Event.text x y loc ha va "ax.transAxes" ha)) := by
  obtain ⟨x, y, ha, va, hs, hl, _, _, _, _⟩ := locStep_recognized freshLocals loc loc h
  refine ⟨x, y, ha, va, hs, ?_⟩
  simp [decorate_axes, runSwitch, hl]

theorem decorate_axes_two_locs (ax : AxesState) (cat : VelociraptorCatalogue)
    (comment : Option String) (ll rl cl : String)
    (h1 : recognizedLoc rl = true) (h2 : recognizedLoc cl = true) (hne : rl ≠ cl) :
    ∃ x1 y1 ha1 va1 x2 y2 ha2 va2,
      specCoords rl = some (x1, y1) ∧ specCoords cl = some (x2, y2) ∧
      decorate_axes ax cat comment ll rl cl =
        Except.ok (applyEvent (applyEvent
            (applyEvent ax (Event.legend ll (markerfirstOf ll)))
            (Event.text x1 y1 (redshiftLabel cat) ha1 va1 "ax.transAxes" ha1))
          (Event.text x2 y2 cl ha2 va2 "ax.transAxes" ha2)) := by
  obtain ⟨x1, y1, ha1, va1, hs1, hl1, _, _, _, _⟩ :=
    locStep_recognized freshLocals rl (redshiftLabel cat) h1
  obtain ⟨x2, y2, ha2, va2, hs2, hl2, _, _, _, _⟩ :=
    locStep_recognized ⟨some va1, some ha1, some x1, some y1⟩ cl cl h2
  refine ⟨x1, y1, ha1, va1, x2, y2, ha2, va2, hs1, hs2, ?_⟩
  simp [decorate_axes, if_neg hne, runSwitch, hl1, hl2]

/-- `locWords` binds nothing when the location has no two words and is not
the bare `right` or `center`. -/
theorem locWords_none (cl : String) (hlen : (pySplit cl ' ').length ≠ 2)
    (hr : cl ≠ "right") (hc : cl ≠ "center") : locWords cl = none := by
  unfold locWords
  rcases hp : pySplit cl ' ' with _ | ⟨v, _ | ⟨w, _ | _⟩⟩
  · simp [if_neg hr, if_neg hc]
  · simp [if_neg hr, if_neg hc]
  · rw [hp] at hlen
    simp at hlen
  · simp [if_neg hr, if_neg hc]

/-- A two-word location with an unknown first word raises the descriptive
`AttributeError` in any loop state. -/
theorem locStep_twoWords_badva (st : LocLocals) (cl label v h : String)
    (hp : pySplit cl ' ' = [v, h]) (hv : vaCoord v = none) :
    locStep st cl label = Except.error (PyErr.attributeError
      ("Unknown location string " ++ cl ++ ". Choose e.g. lower right")) := by
  simp [locStep, locWords, hp, hv]

/-- A two-word location with a known first word but unknown second word
silently reuses the stale `x`. -/
theorem locStep_twoWords_badha (va1 ha1 : String) (x1 y1 : ℚ)
    (cl label v h : String) (y2 : ℚ) (va2 : String)
    (hp : pySplit cl ' ' = [v, h]) (hv : vaCoord v = some (y2, va2))
    (hh : haCoord h = none) :
    locStep ⟨some va1, some ha1, some x1, some y1⟩ cl label =
      Except.ok (⟨some va2, some h, some x1, some y2⟩,
        Event.text x1 y2 label h va2 "ax.transAxes" h) := by
  simp [locStep, locWords, hp, hv, hh]

/-- With no words bound for the location, a stale `va` that is not a
known vertical word (it was rewritten to `bottom` or `top`) raises the
descriptive `AttributeError` naming the new location. -/
theorem locStep_stale_va_bad (va1 ha1 : String) (x1 y1 : ℚ) (cl label : String)
    (hw : locWords cl = none) (hva : vaCoord va1 = none) :
    locStep ⟨some va1, some ha1, some x1, some y1⟩ cl label =
      Except.error (PyErr.attributeError
        ("Unknown location string " ++ cl ++ ". Choose e.g. lower right")) := by
  simp [locStep, hw, hva]

/-- With no words bound for the location and a stale `va = "center"`, the
call silently succeeds, reusing the stale horizontal word. -/
theorem locStep_stale_va_center (ha1 : String) (x1 y1 x2 : ℚ) (cl label : String)
    (hw : locWords cl = none) (hha : haCoord ha1 = some x2) :
    locStep ⟨some "center", some ha1, some x1, some y1⟩ cl label =
      Except.ok (⟨some "center", some ha1, some x2, some (1/2)⟩,
        Event.text x2 (1/2) label ha1 "center" "ax.transAxes" ha1) := by
  simp [locStep, hw, vaCoord, hha]


/-! ### Claim theorems -/

/-- C1 counterexample: the one-word unrecognized location string `left`
does not fail with the descriptive `AttributeError`; the loop locals `va`
and `ha` were never assigned and the code fails with an unbound-local
`NameError` instead. -/
theorem claim_C1_counterexample :
    recognizedLoc "left" = false ∧
    decorate_axes freshAxes ⟨2, 1⟩ none "upper left" "left" "lower left" =
      Except.error (PyErr.nameError "va") ∧
    PyErr.nameError "va" ≠
      PyErr.attributeError "Unknown location string left. Choose e.g. lower right" :=
  ⟨by decide, by decide, by decide⟩

/-- C1 (amended): an unrecognized location string raises the descriptive
`AttributeError` naming it exactly when the vertical word in effect at its
loop iteration is unknown; otherwise it raises an unbound-local
`NameError` or even silently succeeds with values left over from the
previously processed location.  Concretely: an unrecognized
`redshift_loc` (processed first, loop locals unassigned) raises the
descriptive error when it splits into exactly two words with an unknown
first word, and a `NameError` otherwise; an unrecognized `comment_loc`
processed after a recognized `redshift_loc` raises the descriptive error
when it has two words with an unknown first word, or when it does not
split into two words while the redshift location's vertical word was
`lower` or `upper` (stale `va` is `bottom`/`top`); with two words whose
first word is known and second word unknown it silently succeeds reusing
the redshift location's x coordinate, and a non-two-word string after a
`center` vertical word silently succeeds drawing at the redshift
location's coordinates. -/
theorem claim_C1_amended (ax : AxesState) (cat : VelociraptorCatalogue)
    (comment : Option String) (ll rl cl : String) :
    (recognizedLoc rl = false →
      decorate_axes ax cat comment ll rl cl = Except.error (unrecognizedErr rl) ∧
      (∀ va ha, pySplit rl ' ' = [va, ha] → vaCoord va = none →
        unrecognizedErr rl = PyErr.attributeError
          ("Unknown location string " ++ rl ++ ". Choose e.g. lower right")) ∧
      (∀ va ha, pySplit rl ' ' = [va, ha] → vaCoord va ≠ none →
        unrecognizedErr rl = PyErr.nameError "x") ∧
      ((pySplit rl ' ').length ≠ 2 → unrecognizedErr rl = PyErr.nameError "va")) ∧
    (recognizedLoc rl = true → recognizedLoc cl = false →
      (∀ v h, pySplit cl ' ' = [v, h] → vaCoord v = none →
        decorate_axes ax cat comment ll rl cl = Except.error
          (PyErr.attributeError
            ("Unknown location string " ++ cl ++ ". Choose e.g. lower right"))) ∧
      (∀ v h y2 va2, pySplit cl ' ' = [v, h] → vaCoord v = some (y2, va2) →
          haCoord h = none →
        ∃ ax' xr yr,
          specCoords rl = some (xr, yr) ∧
          decorate_axes ax cat comment ll rl cl = Except.ok ax' ∧
          Event.text xr y2 cl h va2 "ax.transAxes" h ∈ ax'.texts) ∧
      ((pySplit cl ' ').length ≠ 2 →
        (((pySplit rl ' ').head? = some "lower" ∨
            (pySplit rl ' ').head? = some "upper") →
          decorate_axes ax cat comment ll rl cl = Except.error
            (PyErr.attributeError
              ("Unknown location string " ++ cl ++ ". Choose e.g. lower right"))) ∧
        (¬((pySplit rl ' ').head? = some "lower" ∨
            (pySplit rl ' ').head? = some "upper") →
          ∃ ax' xr yr ha1,
            specCoords rl = some (xr, yr) ∧
            decorate_axes ax cat comment ll rl cl = Except.ok ax' ∧
            Event.text xr (1/2) cl ha1 "center" "ax.transAxes" ha1 ∈ ax'.texts))) := by
  constructor
  · intro h
    refine ⟨?_, ?_, ?_, ?_⟩
    · by_cases he : rl = cl
      · subst he
        simp [decorate_axes, runSwitch, locStep_fresh_unrecognized rl rl h]
      · simp [decorate_axes, if_neg he, runSwitch,
          locStep_fresh_unrecognized rl (redshiftLabel cat) h]
    · intro va ha hp hv
      unfold unrecognizedErr
      rw [hp]
      simp [hv]
    · intro va ha hp hv
      unfold unrecognizedErr
      rw [hp]
      simp [hv]
    · intro hlen
      unfold unrecognizedErr
      rcases hp : pySplit rl ' ' with _ | ⟨v, _ | ⟨w, _ | _⟩⟩
      · rfl
      · rfl
      · rw [hp] at hlen
        simp at hlen
      · rfl
  · intro h1 hcl
    have hne : rl ≠ cl := by
      intro he
      rw [he] at h1
      rw [h1] at hcl
      exact absurd hcl (by decide)
    obtain ⟨x1, y1, ha1, va1, hs1, hl1, hlow, hup, hhax, hcen⟩ :=
      locStep_recognized freshLocals rl (redshiftLabel cat) h1
    refine ⟨?_, ?_, ?_⟩
    · intro v h2 hp hv
      have hl2 := locStep_twoWords_badva
        (⟨some va1, some ha1, some x1, some y1⟩ : LocLocals) cl cl v h2 hp hv
      simp [decorate_axes, if_neg hne, runSwitch, hl1, hl2]
    · intro v h2 y2 va2 hp hv hh
      have hl2 := locStep_twoWords_badha va1 ha1 x1 y1 cl cl v h2 y2 va2 hp hv hh
      have hd : decorate_axes ax cat comment ll rl cl =
          Except.ok (applyEvent (applyEvent
              (applyEvent ax (Event.legend ll (markerfirstOf ll)))
              (Event.text x1 y1 (redshiftLabel cat) ha1 va1 "ax.transAxes" ha1))
            (Event.text x1 y2 cl h2 va2 "ax.transAxes" h2)) := by
        simp [decorate_axes, if_neg hne, runSwitch, hl1, hl2]
      exact ⟨_, x1, y1, hs1, hd, by simp [applyEvent]⟩
    · intro hlen
      have hr : cl ≠ "right" := by
        intro he
        rw [he] at hcl
        exact absurd hcl (by decide)
      have hc : cl ≠ "center" := by
        intro he
        rw [he] at hcl
        exact absurd hcl (by decide)
      have hw : locWords cl = none := locWords_none cl hlen hr hc
      constructor
      · intro hhead
        have hva1 : vaCoord va1 = none := by
          rcases hhead with hh | hh
          · rw [hlow hh]
            rfl
          · rw [hup hh]
            rfl
        have hl2 := locStep_stale_va_bad va1 ha1 x1 y1 cl cl hw hva1
        simp [decorate_axes, if_neg hne, runSwitch, hl1, hl2]
      · intro hhead
        have hva1 : va1 = "center" := hcen hhead
        subst hva1
        have hl2 := locStep_stale_va_center ha1 x1 y1 x1 cl cl hw hhax
        have hd : decorate_axes ax cat comment ll rl cl =
            Except.ok (applyEvent (applyEvent
                (applyEvent ax (Event.legend ll (markerfirstOf ll)))
                (Event.text x1 y1 (redshiftLabel cat) ha1 "center" "ax.transAxes" ha1))
              (Event.text x1 (1/2) cl ha1 "center" "ax.transAxes" ha1)) := by
          simp [decorate_axes, if_neg hne, runSwitch, hl1, hl2]
        exact ⟨_, x1, y1, ha1, hs1, hd, by simp [applyEvent]⟩

/-- C1 witness: the amended theorem applied at the fresh-locals case
(`redshift_loc = "left"`, an unbound-local `NameError`), at a stale-locals
case where the one-word unrecognized `comment_loc = "weird"` does raise
the descriptive `AttributeError`, and at a stale-locals case where it
silently succeeds. -/
theorem claim_C1_witness :
    recognizedLoc "left" = false ∧
    decorate_axes freshAxes ⟨1, 1⟩ none "upper left" "left" "upper right" =
      Except.error (unrecognizedErr "left") ∧
    recognizedLoc "lower left" = true ∧ recognizedLoc "weird" = false ∧
    (pySplit "weird" ' ').length ≠ 2 ∧
    decorate_axes freshAxes ⟨1, 1⟩ none "upper left" "lower left" "weird" =
      Except.error (PyErr.attributeError
        ("Unknown location string " ++ "weird" ++ ". Choose e.g. lower right")) ∧
    recognizedLoc "center left" = true ∧
    (∃ ax' xr yr ha1,
      specCoords "center left" = some (xr, yr) ∧
      decorate_axes freshAxes ⟨1, 1⟩ none "upper left" "center left" "weird" =
        Except.ok ax' ∧
      Event.text xr (1/2) "weird" ha1 "center" "ax.transAxes" ha1 ∈ ax'.texts) :=
  ⟨by decide,
   ((claim_C1_amended freshAxes ⟨1, 1⟩ none "upper left" "left" "upper right").1
     (by decide)).1,
   by decide, by decide, by decide,
   (((claim_C1_amended freshAxes ⟨1, 1⟩ none "upper left" "lower left" "weird").2
     (by decide) (by decide)).2.2 (by decide)).1 (Or.inl (by decide)),
   by decide,
   (((claim_C1_amended freshAxes ⟨1, 1⟩ none "upper left" "center left" "weird").2
     (by decide) (by decide)).2.2 (by decide)).2 (by decide)⟩

/-- C2 counterexample: with the recognized choice
`redshift_loc = comment_loc = "lower right"` the call succeeds but the
only text annotation drawn is the location string itself; no annotation
with the redshift/scale-factor content is added. -/
theorem claim_C2_counterexample :
    recognizedLoc "lower right" = true ∧
    decorate_axes freshAxes ⟨2, 1⟩ none "upper left" "lower right" "lower right" =
      Except.ok ⟨"", "", "",
        [Event.text (95/100) (5/100) "lower right" "right" "bottom" "ax.transAxes" "right"],
        some (Event.legend "upper left" true), [], []⟩ ∧
    "lower right" ≠ redshiftLabel ⟨2, 1⟩ :=
  ⟨by decide, rfl, by decide⟩

/-- C2 (amended): for every catalogue and recognized locations, provided
`redshift_loc` and `comment_loc` are distinct, `decorate_axes` places the
legend at `legend_loc` and adds a text annotation at the coordinates of
`redshift_loc` whose content is exactly the redshift and scale factor
formatted to three decimal places. -/
theorem claim_C2_amended (ax : AxesState) (cat : VelociraptorCatalogue)
    (comment : Option String) (ll rl cl : String)
    (h1 : recognizedLoc rl = true) (h2 : recognizedLoc cl = true) (hne : rl ≠ cl) :
    ∃ ax' x y ha va,
      decorate_axes ax cat comment ll rl cl = Except.ok ax' ∧
      ax'.legend = some (Event.legend ll (markerfirstOf ll)) ∧
      specCoords rl = some (x, y) ∧
      Event.text x y (redshiftLabel cat) ha va "ax.transAxes" ha ∈ ax'.texts := by
  obtain ⟨x1, y1, ha1, va1, x2, y2, ha2, va2, hs1, hs2, hd⟩ :=
    decorate_axes_two_locs ax cat comment ll rl cl h1 h2 hne
  refine ⟨_, x1, y1, ha1, va1, hd, ?_, hs1, ?_⟩
  · simp [applyEvent]
  · simp [applyEvent]

/-- C2 witness: the amended theorem at distinct recognized locations. -/
theorem claim_C2_witness :
    recognizedLoc "lower right" = true ∧ recognizedLoc "lower left" = true ∧
    ("lower right" : String) ≠ "lower left" ∧
    (∃ ax' x y ha va,
      decorate_axes freshAxes ⟨2, 1⟩ none "upper left" "lower right" "lower left" =
        Except.ok ax' ∧
      ax'.legend = some (Event.legend "upper left" (markerfirstOf "upper left")) ∧
      specCoords "lower right" = some (x, y) ∧
      Event.text x y (redshiftLabel ⟨2, 1⟩) ha va "ax.transAxes" ha ∈ ax'.texts) :=
  ⟨by decide, by decide, by decide,
   claim_C2_amended freshAxes ⟨2, 1⟩ none "upper left" "lower right" "lower left"
     (by decide) (by decide) (by decide)⟩

/-- C3: `decorate_axes` ignores its `comment` argument entirely: its
result never depends on `comment`, and on success the text drawn at
`comment_loc` is the location string `comment_loc` itself. -/
theorem claim_C3 (ax : AxesState) (cat : VelociraptorCatalogue)
    (c1 c2 : Option String) (ll rl cl : String) :
    decorate_axes ax cat c1 ll rl cl = decorate_axes ax cat c2 ll rl cl ∧
    (recognizedLoc rl = true → recognizedLoc cl = true →
      ∃ ax' x y ha va,
        decorate_axes ax cat c1 ll rl cl = Except.ok ax' ∧
        specCoords cl = some (x, y) ∧
        Event.text x y cl ha va "ax.transAxes" ha ∈ ax'.texts) := by
  refine ⟨rfl, ?_⟩
  intro h1 h2
  by_cases he : rl = cl
  · subst he
    obtain ⟨x, y, ha, va, hs, hd⟩ := decorate_axes_same_loc ax cat c1 ll rl h1
    exact ⟨_, x, y, ha, va, hd, hs, by simp [applyEvent]⟩
  · obtain ⟨x1, y1, ha1, va1, x2, y2, ha2, va2, hs1, hs2, hd⟩ :=
      decorate_axes_two_locs ax cat c1 ll rl cl h1 h2 he
    exact ⟨_, x2, y2, ha2, va2, hd, hs2, by simp [applyEvent]⟩

/-- C3 witness: the theorem applied at a concrete comment and recognized
locations. -/
theorem claim_C3_witness :
    decorate_axes freshAxes ⟨2, 1⟩ (some "note") "upper left" "lower right" "lower left" =
      decorate_axes freshAxes ⟨2, 1⟩ none "upper left" "lower right" "lower left" ∧
    (∃ ax' x y ha va,
      decorate_axes freshAxes ⟨2, 1⟩ (some "note") "upper left" "lower right" "lower left" =
        Except.ok ax' ∧
      specCoords "lower left" = some (x, y) ∧
      Event.text x y "lower left" ha va "ax.transAxes" ha ∈ ax'.texts) :=
  ⟨(claim_C3 freshAxes ⟨2, 1⟩ (some "note") none "upper left" "lower right" "lower left").1,
   (claim_C3 freshAxes ⟨2, 1⟩ (some "note") none "upper left" "lower right" "lower left").2
     (by decide) (by decide)⟩

/-- C4: `histogram_x_against_y` computes the 2D histogram of x against y
with the bins `[x_bins, y_bins]` (returned edges unchanged), plots the
transposed counts with a single `pcolormesh` under `LogNorm`, attaches a
colorbar labeled `Number of haloes`, and only then sets the axis labels,
returning the new figure and axes. -/
theorem claim_C4 (x y x_bins y_bins : unyt_array) :
    ∃ H,
      histogram2d x.value y.value x_bins.value y_bins.value =
        (H, x_bins.value, y_bins.value) ∧
      histogram_x_against_y x y x_bins y_bins =
        (applyEvents freshAxes
          [Event.pcolormesh x_bins.value y_bins.value (List.transpose H)
             NormType.logNorm (-100),
           Event.colorbar "Number of haloes" 0,
           Event.setXLabel (get_full_label x), Event.setYLabel (get_full_label y)],
         [Event.pcolormesh x_bins.value y_bins.value (List.transpose H)
            NormType.logNorm (-100),
          Event.colorbar "Number of haloes" 0,
          Event.setXLabel (get_full_label x), Event.setYLabel (get_full_label y)]) ∧
      ((histogram_x_against_y x y x_bins y_bins).2.filter isPcolormeshEv).length = 1 :=
  ⟨(histogram2d x.value y.value x_bins.value y_bins.value).1, rfl, rfl, rfl⟩

/-- C5: `scatter_x_against_y` creates one new figure/axes, makes a single
scatter call on the numeric values of x and y, sets the axis labels via
the label helper, and returns the pair. -/
theorem claim_C5 (x y : unyt_array) :
    scatter_x_against_y x y =
      (applyEvents freshAxes
        [Event.scatter x.value y.value 1 "none" (1/2) (-100),
         Event.setXLabel (get_full_label x), Event.setYLabel (get_full_label y)],
       [Event.scatter x.value y.value 1 "none" (1/2) (-100),
        Event.setXLabel (get_full_label x), Event.setYLabel (get_full_label y)]) ∧
    ((scatter_x_against_y x y).2.filter isScatterEv).length = 1 :=
  ⟨rfl, rfl⟩

/-- C6: `mass_function` makes a single errorbar call on the output triple
of the line, sets the x label from the full label of x and the y label
from the mass-function label helper with the two-character brace sub-label
and the units of the output values array, and returns the new figure and
axes. -/
theorem claim_C6 (x x_bins : unyt_array) (line : VelociraptorLine) :
    mass_function x x_bins line =
      (applyEvents freshAxes
        [Event.errorbar line.output.1.value line.output.2.1.value line.output.2.2.value,
         Event.setXLabel (get_full_label x),
         Event.setYLabel (get_mass_function_label "\x7b\x7d" line.output.2.1.units)],
       [Event.errorbar line.output.1.value line.output.2.1.value line.output.2.2.value,
        Event.setXLabel (get_full_label x),
        Event.setYLabel (get_mass_function_label "\x7b\x7d" line.output.2.1.units)]) ∧
    ((mass_function x x_bins line).2.filter isErrorbarEv).length = 1 :=
  ⟨rfl, rfl⟩

/-- C7: when `redshift_loc` and `comment_loc` are equal recognized
strings, `decorate_axes` draws exactly one text annotation, whose label is
the location string, so the redshift/scale-factor annotation (which always
starts with a dollar sign) is omitted. -/
theorem claim_C7 (ax : AxesState) (cat : VelociraptorCatalogue)
    (comment : Option String) (ll loc : String) (h : recognizedLoc loc = true) :
    ∃ ax' x y ha va,
      decorate_axes ax cat comment ll loc loc = Except.ok ax' ∧
      ax'.texts = ax.texts ++ [Event.text x y loc ha va "ax.transAxes" ha] ∧
      loc ≠ redshiftLabel cat := by
  obtain ⟨x, y, ha, va, hs, hd⟩ := decorate_axes_same_loc ax cat comment ll loc h
  exact ⟨_, x, y, ha, va, hd, by simp [applyEvent],
    recognized_ne_redshiftLabel loc cat h⟩

/-- C7 witness: the theorem at the coinciding location `center`. -/
theorem claim_C7_witness :
    recognizedLoc "center" = true ∧
    (∃ ax' x y ha va,
      decorate_axes freshAxes ⟨3, 1⟩ none "upper left" "center" "center" =
        Except.ok ax' ∧
      ax'.texts = freshAxes.texts ++ [Event.text x y "center" ha va "ax.transAxes" ha] ∧
      "center" ≠ redshiftLabel ⟨3, 1⟩) :=
  ⟨by decide, claim_C7 freshAxes ⟨3, 1⟩ none "upper left" "center" (by decide)⟩

/-- C8: every recognized location string is mapped to the fixed
axes-fraction coordinates of the specification table (`lower` to y = 0.05
aligned bottom, `upper` to y = 0.95 aligned top, `center` to y = 0.5;
`left` to x = 0.05, `right` to x = 0.95, `center` to x = 0.5; one-word
`right` to (0.95, 0.5) and `center` to (0.5, 0.5)). -/
theorem claim_C8 (st : LocLocals) (loc label : String)
    (h : recognizedLoc loc = true) :
    ∃ st' x y ha va,
      specCoords loc = some (x, y) ∧
      locStep st loc label =
        Except.ok (st', Event.text x y label ha va "ax.transAxes" ha) ∧
      ((pySplit loc ' ').head? = some "lower" → va = "bottom") ∧
      ((pySplit loc ' ').head? = some "upper" → va = "top") := by
  obtain ⟨x, y, ha, va, hs, hl, hb, ht, _, _⟩ := locStep_recognized st loc label h
  exact ⟨_, x, y, ha, va, hs, hl, hb, ht⟩

/-- C8 witness: the theorem at the location `upper right`. -/
theorem claim_C8_witness :
    recognizedLoc "upper right" = true ∧
    (∃ st' x y ha va,
      specCoords "upper right" = some (x, y) ∧
      locStep freshLocals "upper right" "L" =
        Except.ok (st', Event.text x y "L" ha va "ax.transAxes" ha) ∧
      ((pySplit "upper right" ' ').head? = some "lower" → va = "bottom") ∧
      ((pySplit "upper right" ' ').head? = some "upper" → va = "top")) :=
  ⟨by decide, claim_C8 freshLocals "upper right" "L" (by decide)⟩

/-- C9: the module keeps no state between calls: equal calls give equal
results, and the result of a call appended to any earlier call sequence is
exactly its standalone result. -/
theorem claim_C9 (earlier : List Call) (c c' : Call) (h : c = c') :
    runCall c = runCall c' ∧
    runCalls (earlier ++ [c]) = runCalls earlier ++ [runCall c] := by
  subst h
  exact ⟨rfl, by simp [runCalls]⟩

/-- C9 witness: the theorem applied after an earlier scatter call. -/
theorem claim_C9_witness :
    runCall (Call.setLabelsCall freshAxes ⟨[], "u", "n"⟩ ⟨[], "u", "n"⟩) =
      runCall (Call.setLabelsCall freshAxes ⟨[], "u", "n"⟩ ⟨[], "u", "n"⟩) ∧
    runCalls ([Call.scatterCall ⟨[1], "u", "n"⟩ ⟨[2], "u", "n"⟩] ++
        [Call.setLabelsCall freshAxes ⟨[], "u", "n"⟩ ⟨[], "u", "n"⟩]) =
      runCalls [Call.scatterCall ⟨[1], "u", "n"⟩ ⟨[2], "u", "n"⟩] ++
        [runCall (Call.setLabelsCall freshAxes ⟨[], "u", "n"⟩ ⟨[], "u", "n"⟩)] :=
  claim_C9 [Call.scatterCall ⟨[1], "u", "n"⟩ ⟨[2], "u", "n"⟩] _ _ rfl

/-- C10: `set_labels` changes only the x and y labels of the axes (to the
full labels of x and y) and leaves every other axes property unchanged. -/
theorem claim_C10 (ax : AxesState) (x y : unyt_array) :
    (set_labels ax x y).1.xlabel = get_full_label x ∧
    (set_labels ax x y).1.ylabel = get_full_label y ∧
    (set_labels ax x y).1.title = ax.title ∧
    (set_labels ax x y).1.texts = ax.texts ∧
    (set_labels ax x y).1.legend = ax.legend ∧
    (set_labels ax x y).1.artists = ax.artists ∧
    (set_labels ax x y).1.colorbars = ax.colorbars :=
  ⟨rfl, rfl, rfl, rfl, rfl, rfl, rfl⟩

end VelociraptorPlot
